import Mathlib

/-!
Verification of the database-engine factory (`src/databases/factory.py`) and the
logging setup helper (`src/utils/log_utils.py`) of the ETL-Core repository.

The Python code is shallowly embedded: the class-level registry dict of
`DatabaseEngineFactory` becomes an insertion-ordered association list with the
semantics of Python `dict` assignment and lookup; a concrete
`DatabaseStrategy` subclass together with the behaviour of the external
Airflow / SQLAlchemy collaborators it invokes becomes a `Strategy` record of
result-valued functions; Python exceptions become an `Exc` sum type carried in
`Except`.  Observable side effects that the claims talk about (how many times
`create_hook` was invoked, how many times the liveness probe ran, how many
times the constructed engine was disposed/closed) are tracked in a `Trace`.
-/

set_option autoImplicit false

namespace ETLCore

universe u v

/-- Equality of `Except` values is decidable when it is on both sides. -/
instance {ε : Type u} {α : Type v} [DecidableEq ε] [DecidableEq α] :
    DecidableEq (Except ε α) := fun a b =>
  match a, b with
  | .ok x, .ok y =>
    if h : x = y then .isTrue (by rw [h])
    else .isFalse (by intro hh; cases hh; exact h rfl)
  | .ok _, .error _ => .isFalse (by intro hh; cases hh)
  | .error _, .ok _ => .isFalse (by intro hh; cases hh)
  | .error x, .error y =>
    if h : x = y then .isTrue (by rw [h])
    else .isFalse (by intro hh; cases hh; exact h rfl)

/-- Python `s.strip()`: drop leading and trailing whitespace (the claims use
ASCII identifiers, so the ASCII whitespace predicate suffices). -/
def pyStrip (s : String) : String :=
  ⟨((s.data.dropWhile Char.isWhitespace).reverse.dropWhile Char.isWhitespace).reverse⟩

/-- Python `s.lower()` (the registry names are ASCII, so ASCII lowering
suffices). -/
def pyLower (s : String) : String :=
  ⟨s.data.map Char.toLower⟩

/-- Python `dict` lookup `d.get(k)` on an insertion-ordered association list:
the entry for a key is unique when the list was built by `dictInsert`, and
lookup returns its value. -/
def dictGet {α : Type u} (d : List (String × α)) (k : String) : Option α :=
  (d.find? (fun p => p.1 == k)).map (·.2)

/-- Python `dict` assignment `d[k] = v`: if the key is present its value is
updated in place (key order preserved), otherwise the pair is appended. -/
def dictInsert {α : Type u} (d : List (String × α)) (k : String) (v : α) :
    List (String × α) :=
  if d.any (fun p => p.1 == k) then
    d.map (fun p => if p.1 == k then (k, v) else p)
  else
    d ++ [(k, v)]

/-- Python `list(d.keys())`: the keys in insertion order. -/
def dictKeys {α : Type u} (d : List (String × α)) : List String :=
  d.map (·.1)

/-- Number of entries of the association list carrying the key `k`. -/
def countKey {α : Type u} (d : List (String × α)) (k : String) : Nat :=
  (d.filter (fun p => p.1 == k)).length

/-- The Python exceptions appearing in `factory.py`:
`ValueError`, `airflow.exceptions.AirflowNotFoundException`,
`sqlalchemy.exc.SQLAlchemyError`, and any other exception a collaborator may
raise (modelled by its message). -/
inductive Exc
  | valueError (msg : String)
  | airflowNotFoundException (msg : String)
  | sqlAlchemyError (msg : String)
  | otherError (msg : String)
deriving Repr, DecidableEq

/-- Python `str(err)` / `f"...{err}"` for the exceptions above: the message. -/
def Exc.message : Exc → String
  | .valueError m => m
  | .airflowNotFoundException m => m
  | .sqlAlchemyError m => m
  | .otherError m => m

/-- Option mappings (`hook_options`, `sqlalchemy_options`): open string-keyed
dictionaries whose values are opaque to the factory (modelled as strings). -/
abbrev PyDict := List (String × String)

/-- Python truthiness coercion `x or {}` applied to an optional dict argument:
`None` and the empty dict both yield the empty dict, any other dict is kept. -/
def pyDictOr (o : Option PyDict) : PyDict :=
  match o with
  | none => []
  | some d => if d.isEmpty then [] else d

/-- Python `repr` of a list of strings, e.g. `['postgres', 'mssql']`
(as interpolated by `f"Supported types: {valid_types}"`). -/
def pyStrListRepr (xs : List String) : String :=
  "[" ++ String.intercalate ", " (xs.map (fun s => "\x27" ++ s ++ "\x27")) ++ "]"

/-- The message of the `ValueError` raised by
`DatabaseEngineFactory.get_engine` for an unregistered `db_type`
(factory.py lines 190-195). -/
def unsupportedMessage (dbType : String) (validTypes : List String) : String :=
  "Unsupported database type: \x27" ++ dbType ++ "\x27. Supported types: " ++
    pyStrListRepr validTypes

/-- The message of the `ValueError` raised by
`DatabaseStrategy.create_validated_engine` for a blank `conn_id`
(factory.py line 64). -/
def connIdEmptyMessage : String :=
  "Connection ID (conn_id) cannot be None or empty."

/-- A concrete `DatabaseStrategy` subclass together with the behaviour of the
external collaborators it calls.  Hooks, engines and connections are opaque
resources, modelled by natural-number identifiers.

* `createHook` — the subclass's `create_hook(conn_id, hook_options)`, which
  constructs an Airflow hook; credential resolution failure surfaces as
  `AirflowNotFoundException`.
* `getSqlalchemyEngine` — the external
  `hook.get_sqlalchemy_engine(engine_kwargs=sqlalchemy_options)`.
* `probeExec` — the external round trip
  `with engine.connect() as connection: connection.execute(text(query))`;
  both the connect and the execute may raise, any exception is reported. -/
structure Strategy where
  createHook : String → PyDict → Except Exc Nat
  getSqlalchemyEngine : Nat → PyDict → Except Exc Nat
  probeExec : Nat → String → Except Exc Unit

/-- Observable side effects of one factory call:
invocations of the strategy's `create_hook`, attempts of the liveness probe,
and invocations of `dispose()`/`close()` on the constructed engine.
`factory.py` contains no call to `engine.dispose()` or any other release of
the engine, so `disposeCalls` is never incremented by the embedded code. -/
structure Trace where
  hookCalls : Nat := 0
  probeCalls : Nat := 0
  disposeCalls : Nat := 0
deriving Repr, DecidableEq

/-- `DatabaseStrategy._validate_connection` (factory.py lines 87-102):
executes `SELECT 1` on a fresh connection; any exception `err` is caught and
re-raised as `SQLAlchemyError(f"Connection test failed: {err}")`. -/
def validateConnection (s : Strategy) (engine : Nat) : Except Exc Unit :=
  match s.probeExec engine "SELECT 1" with
  | .ok _ => .ok ()
  | .error err => .error (.sqlAlchemyError ("Connection test failed: " ++ err.message))

/-- `DatabaseStrategy.create_validated_engine` (factory.py lines 37-85):
rejects a blank `conn_id` (`not conn_id or not conn_id.strip()`), then creates
the hook, obtains the engine, validates the connection and returns the engine.
The `except AirflowNotFoundException` / `except SQLAlchemyError` clauses log
and re-raise the exception unchanged, so every failure of a step propagates
as is.  The result is paired with the trace of observable effects. -/
def createValidatedEngine (s : Strategy) (connId : String)
    (hookOptions sqlalchemyOptions : PyDict) : Except Exc Nat × Trace :=
  if connId = "" ∨ pyStrip connId = "" then
    (.error (.valueError connIdEmptyMessage), {})
  else
    match s.createHook connId hookOptions with
    | .error e => (.error e, { hookCalls := 1 })
    | .ok hook =>
      match s.getSqlalchemyEngine hook sqlalchemyOptions with
      | .error e => (.error e, { hookCalls := 1 })
      | .ok engine =>
        match validateConnection s engine with
        | .error e => (.error e, { hookCalls := 1, probeCalls := 1 })
        | .ok _ => (.ok engine, { hookCalls := 1, probeCalls := 1 })

/-- The state of `DatabaseEngineFactory`: its class-level `_registry` dict
mapping lower-cased type names to strategies.  Registry values are the
strategies themselves: Python's `strategy_cls()` instantiation takes no
arguments and has no observable effect, so a registered strategy class and
its instance are identified. -/
structure FactoryState where
  registry : List (String × Strategy)

/-- `DatabaseEngineFactory.register_strategy` (factory.py lines 148-157):
`cls._registry[db_type.lower()] = strategy_cls`. -/
def registerStrategy (st : FactoryState) (dbType : String) (s : Strategy) :
    FactoryState :=
  { st with registry := dictInsert st.registry (pyLower dbType) s }

/-- `DatabaseEngineFactory.get_engine` (factory.py lines 159-198):
normalises the optional option dicts with `or {}`, looks up
`cls._registry.get(db_type.lower())`, raises `ValueError` with the supported
types when absent, otherwise instantiates the strategy and delegates to
`create_validated_engine`.  The strategy always receives genuine dicts, never
`None`. -/
def getEngine (st : FactoryState) (dbType connId : String)
    (hookOptions sqlalchemyOptions : Option PyDict) : Except Exc Nat × Trace :=
  let hookOptions := pyDictOr hookOptions
  let sqlalchemyOptions := pyDictOr sqlalchemyOptions
  match dictGet st.registry (pyLower dbType) with
  | none =>
      (.error (.valueError (unsupportedMessage dbType (dictKeys st.registry))), {})
  | some strategy =>
      createValidatedEngine strategy connId hookOptions sqlalchemyOptions

/-- Test double: a strategy whose hook creation, engine construction and
liveness probe all succeed (the spec's "fake handle whose probe always
succeeds"). -/
def okStrategy : Strategy :=
  { createHook := fun _ _ => .ok 0
    getSqlalchemyEngine := fun hook _ => .ok hook
    probeExec := fun _ _ => .ok () }

/-- Test double: hook creation and engine construction succeed, the liveness
probe raises an exception with message `boom`. -/
def probeFailStrategy : Strategy :=
  { createHook := fun _ _ => .ok 0
    getSqlalchemyEngine := fun hook _ => .ok hook
    probeExec := fun _ _ => .error (.otherError "boom") }

/-- Test double: hook creation fails with `AirflowNotFoundException`
(the connection identifier does not resolve to known credentials). -/
def credFailStrategy : Strategy :=
  { createHook := fun _ _ => .error (.airflowNotFoundException "conn not found")
    getSqlalchemyEngine := fun hook _ => .ok hook
    probeExec := fun _ _ => .ok () }

/-- Factory state with the single strategy `"alpha"` registered. -/
def alphaFactory : FactoryState :=
  registerStrategy { registry := [] } "alpha" okStrategy

/-- Factory state after module import (factory.py lines 203-204):
`'postgres'` registered first, then `'mssql'`; the external behaviour of the
two real strategies is irrelevant to the registry-shape facts proved about
this state, so both are instantiated with a test double. -/
def moduleInitFactory : FactoryState :=
  registerStrategy (registerStrategy { registry := [] } "postgres" okStrategy)
    "mssql" okStrategy

/-- C1 counterexample: with no strategy registered, `get_engine("beta", "")`
raises the unsupported-type `ValueError` produced by the registry lookup, not
the blank-identifier `ValueError` — so the blank-identifier check does not run
before the registry lookup, refuting the claim at the empty identifier `""`. -/
theorem c1_counterexample :
    (getEngine { registry := [] } "beta" "" none none).1 =
      .error (.valueError (unsupportedMessage "beta" [])) ∧
    (getEngine { registry := [] } "beta" "" none none).1 ≠
      .error (.valueError connIdEmptyMessage) ∧
    (getEngine { registry := [] } "beta" "" none none).1 ≠
      .error (.valueError "connection identifier must not be empty") := by
  refine ⟨rfl, ?_, ?_⟩ <;> decide

/-- C1 (amended): for every empty or whitespace-only `conn_id` whose `db_type`
is registered, `get_engine` fails with the blank-identifier `ValueError` and
the strategy's `create_hook` is never invoked; the check runs inside
`create_validated_engine`, i.e. after the registry lookup and after strategy
instantiation, but before any credential resolution. -/
theorem c1_blank_id_fails_before_hook (st : FactoryState) (dbType connId : String)
    (ho so : Option PyDict) (s : Strategy)
    (hreg : dictGet st.registry (pyLower dbType) = some s)
    (hblank : pyStrip connId = "") :
    getEngine st dbType connId ho so = (.error (.valueError connIdEmptyMessage), {}) ∧
    (getEngine st dbType connId ho so).2.hookCalls = 0 := by
  have h : getEngine st dbType connId ho so =
      (.error (.valueError connIdEmptyMessage), {}) := by
    simp [getEngine, createValidatedEngine, hreg, hblank]
  exact ⟨h, by rw [h]⟩

/-- Witness for C1 (amended) at the registered type `"alpha"` and the
whitespace-only identifier `"  "`. -/
theorem c1_witness :
    (dictGet alphaFactory.registry (pyLower "alpha") = some okStrategy ∧
      pyStrip "  " = "") ∧
    (getEngine alphaFactory "alpha" "  " none none =
        (.error (.valueError connIdEmptyMessage), {}) ∧
      (getEngine alphaFactory "alpha" "  " none none).2.hookCalls = 0) :=
  ⟨⟨rfl, rfl⟩,
    c1_blank_id_fails_before_hook alphaFactory "alpha" "  " none none okStrategy rfl rfl⟩

/-- C2 counterexample: with a registered strategy whose hook creation and
engine construction succeed and whose probe raises, `get_engine` fails with
the wrapping `SQLAlchemyError` but the constructed engine's dispose/close is
invoked zero times, not exactly once — the handle is not released. -/
theorem c2_counterexample :
    (getEngine (registerStrategy { registry := [] } "alpha" probeFailStrategy)
        "alpha" "conn1" none none).1 =
      .error (.sqlAlchemyError "Connection test failed: boom") ∧
    (getEngine (registerStrategy { registry := [] } "alpha" probeFailStrategy)
        "alpha" "conn1" none none).2.disposeCalls = 0 ∧
    ¬ (getEngine (registerStrategy { registry := [] } "alpha" probeFailStrategy)
        "alpha" "conn1" none none).2.disposeCalls = 1 :=
  ⟨rfl, rfl, by decide⟩

/-- C2 (amended): when hook creation and engine construction succeed but the
liveness probe raises, `get_engine` fails with `SQLAlchemyError` wrapping the
underlying cause in its message, and the constructed engine is not released:
no dispose/close is invoked on the failure path (`disposeCalls = 0`). -/
theorem c2_probe_failure_no_release (st : FactoryState) (dbType connId : String)
    (ho so : Option PyDict) (s : Strategy) (hook engine : Nat) (e : Exc)
    (hreg : dictGet st.registry (pyLower dbType) = some s)
    (hid : ¬(connId = "" ∨ pyStrip connId = ""))
    (hhook : s.createHook connId (pyDictOr ho) = .ok hook)
    (heng : s.getSqlalchemyEngine hook (pyDictOr so) = .ok engine)
    (hprobe : s.probeExec engine "SELECT 1" = .error e) :
    getEngine st dbType connId ho so =
      (.error (.sqlAlchemyError ("Connection test failed: " ++ e.message)),
        { hookCalls := 1, probeCalls := 1, disposeCalls := 0 }) := by
  simp [getEngine, createValidatedEngine, validateConnection,
    hreg, hid, hhook, heng, hprobe]

/-- Witness for C2 (amended) at the probe-failing test double. -/
theorem c2_witness :
    (dictGet (registerStrategy { registry := [] } "alpha" probeFailStrategy).registry
        (pyLower "alpha") = some probeFailStrategy ∧
      ¬("conn1" = "" ∨ pyStrip "conn1" = "") ∧
      probeFailStrategy.createHook "conn1" (pyDictOr none) = .ok 0 ∧
      probeFailStrategy.getSqlalchemyEngine 0 (pyDictOr none) = .ok 0 ∧
      probeFailStrategy.probeExec 0 "SELECT 1" = .error (.otherError "boom")) ∧
    getEngine (registerStrategy { registry := [] } "alpha" probeFailStrategy)
        "alpha" "conn1" none none =
      (.error (.sqlAlchemyError ("Connection test failed: " ++
          (Exc.otherError "boom").message)),
        { hookCalls := 1, probeCalls := 1, disposeCalls := 0 }) :=
  ⟨⟨rfl, by decide, rfl, rfl, rfl⟩,
    c2_probe_failure_no_release
      (registerStrategy { registry := [] } "alpha" probeFailStrategy)
      "alpha" "conn1" none none probeFailStrategy 0 0 (.otherError "boom")
      rfl (by decide) rfl rfl rfl⟩

/-- If `create_validated_engine` returns an engine, the `SELECT 1` probe on
that engine succeeded and the probe ran exactly once. -/
theorem createValidatedEngine_ok_probe (s : Strategy) (connId : String)
    (ho so : PyDict) (engine : Nat)
    (hok : (createValidatedEngine s connId ho so).1 = .ok engine) :
    s.probeExec engine "SELECT 1" = .ok () ∧
    (createValidatedEngine s connId ho so).2.probeCalls = 1 := by
  by_cases hb : connId = "" ∨ pyStrip connId = ""
  · simp [createValidatedEngine, hb] at hok
  · cases hh : s.createHook connId ho with
    | error e => simp [createValidatedEngine, hb, hh] at hok
    | ok hook =>
      cases he : s.getSqlalchemyEngine hook so with
      | error e => simp [createValidatedEngine, hb, hh, he] at hok
      | ok eng =>
        cases hp : s.probeExec eng "SELECT 1" with
        | error e =>
          simp [createValidatedEngine, validateConnection, hb, hh, he, hp] at hok
        | ok v =>
          have heng : eng = engine := by
            simpa [createValidatedEngine, validateConnection, hb, hh, he, hp] using hok
          subst heng
          cases v
          exact ⟨hp, by
            simp [createValidatedEngine, validateConnection, hb, hh, he, hp]⟩

/-- C3: every call to `get_engine` that returns a handle resolved some
strategy, and the `SELECT 1` liveness probe against the returned engine
succeeded (and ran exactly once) before the return; no handle for which the
probe has not succeeded is ever returned. -/
theorem c3_returned_handle_probed (st : FactoryState) (dbType connId : String)
    (ho so : Option PyDict) (engine : Nat)
    (hok : (getEngine st dbType connId ho so).1 = .ok engine) :
    ∃ s, dictGet st.registry (pyLower dbType) = some s ∧
      s.probeExec engine "SELECT 1" = .ok () ∧
      (getEngine st dbType connId ho so).2.probeCalls = 1 := by
  cases hlook : dictGet st.registry (pyLower dbType) with
  | none =>
    rw [getEngine, hlook] at hok
    simp at hok
  | some s =>
    refine ⟨s, rfl, ?_⟩
    have h2 := createValidatedEngine_ok_probe s connId (pyDictOr ho) (pyDictOr so)
      engine (by rw [getEngine, hlook] at hok; exact hok)
    rw [getEngine, hlook]
    exact h2

/-- Witness for C3 at the always-healthy `"alpha"` test double. -/
theorem c3_witness :
    (getEngine alphaFactory "alpha" "conn1" none none).1 = .ok 0 ∧
    (∃ s, dictGet alphaFactory.registry (pyLower "alpha") = some s ∧
      s.probeExec 0 "SELECT 1" = .ok () ∧
      (getEngine alphaFactory "alpha" "conn1" none none).2.probeCalls = 1) :=
  ⟨rfl, c3_returned_handle_probed alphaFactory "alpha" "conn1" none none 0 rfl⟩

/-- C4 counterexample: after the module-import registrations (`'postgres'`
then `'mssql'`), the unsupported-type error lists the registered names in
insertion order `['postgres', 'mssql']`, which is not the sorted order
`['mssql', 'postgres']` the claim requires. -/
theorem c4_counterexample :
    dictKeys moduleInitFactory.registry = ["postgres", "mssql"] ∧
    (getEngine moduleInitFactory "sqlite" "conn1" none none).1 =
      .error (.valueError (unsupportedMessage "sqlite" ["postgres", "mssql"])) ∧
    (getEngine moduleInitFactory "sqlite" "conn1" none none).1 ≠
      .error (.valueError (unsupportedMessage "sqlite" ["mssql", "postgres"])) ∧
    List.Sorted (fun a b => a ≤ b) ["mssql", "postgres"] ∧
    ¬ List.Sorted (fun a b => a ≤ b) ["postgres", "mssql"] := by
  refine ⟨rfl, rfl, by decide, ?_, ?_⟩
  · simp [List.sorted_cons]
    decide
  · simp [List.sorted_cons]
    decide

/-- C4 (amended): for every `db_type` whose lower-cased form is absent from
the registry, `get_engine` fails with a `ValueError` carrying the requested
name and the list of currently-registered names in registration (insertion)
order — not sorted; in particular, with only `"alpha"` registered,
`get_engine("beta", ...)` fails listing `["alpha"]`. -/
theorem c4_unsupported_error_lists_insertion_order (st : FactoryState)
    (dbType connId : String) (ho so : Option PyDict)
    (hnone : dictGet st.registry (pyLower dbType) = none) :
    (getEngine st dbType connId ho so).1 =
      .error (.valueError (unsupportedMessage dbType (dictKeys st.registry))) := by
  simp [getEngine, hnone]

/-- Witness for C4 (amended): with only `"alpha"` registered,
`get_engine("beta", ...)` fails listing `["alpha"]` as the known set. -/
theorem c4_witness :
    dictGet alphaFactory.registry (pyLower "beta") = none ∧
    (getEngine alphaFactory "beta" "conn1" none none).1 =
      .error (.valueError (unsupportedMessage "beta" (dictKeys alphaFactory.registry))) ∧
    dictKeys alphaFactory.registry = ["alpha"] :=
  ⟨rfl,
    c4_unsupported_error_lists_insertion_order alphaFactory "beta" "conn1" none none rfl,
    rfl⟩

/-- C5: for every non-empty `db_type` absent (after lower-casing) from the
registry, `get_engine` fails with the unsupported-type `ValueError` and no
strategy activity happens: `create_hook` — and hence credential resolution —
is never attempted (the trace is empty). -/
theorem c5_unregistered_no_credential_resolution (st : FactoryState)
    (dbType connId : String) (ho so : Option PyDict)
    (_hne : dbType ≠ "")
    (hnone : dictGet st.registry (pyLower dbType) = none) :
    getEngine st dbType connId ho so =
      (.error (.valueError (unsupportedMessage dbType (dictKeys st.registry))), {}) ∧
    (getEngine st dbType connId ho so).2.hookCalls = 0 := by
  have h : getEngine st dbType connId ho so =
      (.error (.valueError (unsupportedMessage dbType (dictKeys st.registry))), {}) := by
    simp [getEngine, hnone]
  exact ⟨h, by rw [h]⟩

/-- Witness for C5 at the unregistered type `"beta"`. -/
theorem c5_witness :
    (("beta" : String) ≠ "" ∧
      dictGet alphaFactory.registry (pyLower "beta") = none) ∧
    (getEngine alphaFactory "beta" "conn1" none none =
        (.error (.valueError (unsupportedMessage "beta" (dictKeys alphaFactory.registry))), {}) ∧
      (getEngine alphaFactory "beta" "conn1" none none).2.hookCalls = 0) :=
  ⟨⟨by decide, rfl⟩,
    c5_unregistered_no_credential_resolution alphaFactory "beta" "conn1" none none
      (by decide) rfl⟩

/-- A `dictInsert` leaves the value of its key retrievable: Python
`d[k] = v; d.get(k) == v`. -/
theorem dictGet_dictInsert_self {α : Type u} (d : List (String × α)) (k : String)
    (v : α) : dictGet (dictInsert d k v) k = some v := by
  unfold dictGet dictInsert
  by_cases h : d.any (fun p => p.1 == k) = true
  · rw [if_pos h]
    induction d with
    | nil => simp at h
    | cons hd tl ih =>
      by_cases hk : hd.1 = k
      · simp [hk]
      · have htl : tl.any (fun p => p.1 == k) = true := by
          simpa [List.any_cons, hk] using h
        simpa [hk] using ih htl
  · rw [if_neg h]
    induction d with
    | nil => simp
    | cons hd tl ih =>
      have hhd : ¬ hd.1 = k := by
        intro hk
        exact h (by simp [List.any_cons, hk])
      have htl : ¬ tl.any (fun p => p.1 == k) = true := by
        intro hk
        exact h (by simp [List.any_cons, hk])
      simpa [hhd] using ih htl

/-- Entries whose key differs from `k` are untouched by the update part of
`dictInsert`. -/
theorem map_update_of_no_key {α : Type u} (d : List (String × α)) (k : String)
    (v : α) (h : ∀ p ∈ d, p.1 ≠ k) :
    d.map (fun p => if p.1 == k then (k, v) else p) = d := by
  induction d with
  | nil => rfl
  | cons hd tl ih =>
    have hhd : ¬ (hd.1 == k) = true := by
      simpa using h hd (by simp)
    rw [List.map_cons, if_neg hhd, ih (fun p hp => h p (by simp [hp]))]

/-- A key absent from the association list is counted zero times. -/
theorem countKey_eq_zero {α : Type u} (d : List (String × α)) (k : String)
    (h : ∀ p ∈ d, p.1 ≠ k) : countKey d k = 0 := by
  unfold countKey
  have hnil : d.filter (fun p => p.1 == k) = [] := by
    rw [List.filter_eq_nil_iff]
    intro p hp
    simpa using h p hp
  rw [hnil]
  rfl

/-- On a registry whose keys are distinct — the invariant of a Python dict —
`dictInsert` leaves exactly one entry for its key. -/
theorem countKey_dictInsert_self {α : Type u} (d : List (String × α)) (k : String)
    (v : α) (hnd : (dictKeys d).Nodup) : countKey (dictInsert d k v) k = 1 := by
  unfold dictInsert
  by_cases h : d.any (fun p => p.1 == k) = true
  · rw [if_pos h]
    induction d with
    | nil => simp at h
    | cons hd tl ih =>
      have hni : hd.1 ∉ dictKeys tl := (List.nodup_cons.mp hnd).1
      have hndtl : (dictKeys tl).Nodup := (List.nodup_cons.mp hnd).2
      by_cases hk : hd.1 = k
      · have hno : ∀ p ∈ tl, p.1 ≠ k := by
          intro p hp hpk
          exact hni (by rw [hk, ← hpk] at hni ⊢; exact List.mem_map_of_mem _ hp)
        rw [List.map_cons, if_pos (by simpa using hk), map_update_of_no_key tl k v hno]
        simpa [countKey] using countKey_eq_zero tl k hno
      · have htl : tl.any (fun p => p.1 == k) = true := by
          simpa [List.any_cons, hk] using h
        rw [List.map_cons, if_neg (by simpa using hk)]
        simpa [countKey, hk] using ih hndtl htl
  · rw [if_neg h]
    have hno : ∀ p ∈ d, p.1 ≠ k := by
      intro p hp hpk
      exact h (List.any_eq_true.mpr ⟨p, hp, by simpa using hpk⟩)
    unfold countKey
    have hnil : d.filter (fun p => p.1 == k) = [] := by
      rw [List.filter_eq_nil_iff]
      intro p hp
      simpa using hno p hp
    rw [List.filter_append, hnil]
    simp

/-- `dictInsert` preserves distinctness of the keys — the Python dict
invariant. -/
theorem nodup_dictKeys_dictInsert {α : Type u} (d : List (String × α)) (k : String)
    (v : α) (hnd : (dictKeys d).Nodup) : (dictKeys (dictInsert d k v)).Nodup := by
  unfold dictInsert
  by_cases h : d.any (fun p => p.1 == k) = true
  · rw [if_pos h]
    have hkeys : dictKeys (d.map fun p => if p.1 == k then (k, v) else p) = dictKeys d := by
      unfold dictKeys
      rw [List.map_map]
      apply List.map_congr_left
      intro p hp
      by_cases hpk : p.1 = k <;> simp [hpk]
    rw [hkeys]
    exact hnd
  · rw [if_neg h]
    have hno : ∀ p ∈ d, p.1 ≠ k := by
      intro p hp hpk
      exact h (List.any_eq_true.mpr ⟨p, hp, by simpa using hpk⟩)
    unfold dictKeys
    rw [List.map_append]
    rw [List.nodup_append]
    refine ⟨hnd, List.nodup_singleton k, ?_⟩
    intro a ha hb
    simp at hb
    obtain ⟨p, hp, hpk⟩ := List.mem_map.mp ha
    exact hno p hp (by rw [hpk, hb])

/-- C6: `register_strategy` is an idempotent upsert keyed by the lower-cased
name: after two registrations whose names agree up to case, the registry
(whose keys are distinct, as in any Python dict) holds exactly one entry for
the normalized name, that entry is the second strategy, and subsequent
`get_engine` calls dispatch to the second strategy. -/
theorem c6_register_upsert_last_wins (st : FactoryState) (n1 n2 connId : String)
    (s1 s2 : Strategy) (ho so : Option PyDict)
    (hnd : (dictKeys st.registry).Nodup)
    (hcase : pyLower n1 = pyLower n2) :
    countKey (registerStrategy (registerStrategy st n1 s1) n2 s2).registry
        (pyLower n2) = 1 ∧
    dictGet (registerStrategy (registerStrategy st n1 s1) n2 s2).registry
        (pyLower n2) = some s2 ∧
    dictGet (registerStrategy (registerStrategy st n1 s1) n2 s2).registry
        (pyLower n1) = some s2 ∧
    getEngine (registerStrategy (registerStrategy st n1 s1) n2 s2) n2 connId ho so =
      createValidatedEngine s2 connId (pyDictOr ho) (pyDictOr so) := by
  have hnd1 : (dictKeys (dictInsert st.registry (pyLower n1) s1)).Nodup :=
    nodup_dictKeys_dictInsert st.registry (pyLower n1) s1 hnd
  have hget : dictGet (registerStrategy (registerStrategy st n1 s1) n2 s2).registry
      (pyLower n2) = some s2 :=
    dictGet_dictInsert_self (dictInsert st.registry (pyLower n1) s1) (pyLower n2) s2
  refine ⟨countKey_dictInsert_self _ (pyLower n2) s2 hnd1, hget, hcase ▸ hget, ?_⟩
  simp [getEngine, hget]

/-- Witness for C6: registering `"Postgres"` then `"postgres"` on an empty
registry leaves one entry, holding the second strategy. -/
theorem c6_witness :
    ((dictKeys ({ registry := [] } : FactoryState).registry).Nodup ∧
      pyLower "Postgres" = pyLower "postgres") ∧
    (countKey (registerStrategy (registerStrategy { registry := [] } "Postgres" okStrategy)
        "postgres" probeFailStrategy).registry (pyLower "postgres") = 1 ∧
      dictGet (registerStrategy (registerStrategy { registry := [] } "Postgres" okStrategy)
        "postgres" probeFailStrategy).registry (pyLower "postgres") = some probeFailStrategy ∧
      dictGet (registerStrategy (registerStrategy { registry := [] } "Postgres" okStrategy)
        "postgres" probeFailStrategy).registry (pyLower "Postgres") = some probeFailStrategy ∧
      getEngine (registerStrategy (registerStrategy { registry := [] } "Postgres" okStrategy)
          "postgres" probeFailStrategy) "postgres" "conn1" none none =
        createValidatedEngine probeFailStrategy "conn1" (pyDictOr none) (pyDictOr none)) :=
  ⟨⟨List.nodup_nil, rfl⟩,
    c6_register_upsert_last_wins { registry := [] } "Postgres" "postgres" "conn1"
      okStrategy probeFailStrategy none none List.nodup_nil rfl⟩

/-- C7: dispatch is case-insensitive — every case variant of a registered
name resolves to the same strategy and yields the same result as the
registered form, so a succeeding call keeps succeeding under case changes. -/
theorem c7_case_insensitive_dispatch (st : FactoryState) (name variant connId : String)
    (ho so : Option PyDict) (s : Strategy)
    (hvar : pyLower variant = pyLower name)
    (hreg : dictGet st.registry (pyLower name) = some s) :
    getEngine st variant connId ho so = getEngine st name connId ho so ∧
    getEngine st variant connId ho so =
      createValidatedEngine s connId (pyDictOr ho) (pyDictOr so) := by
  have h2 : getEngine st variant connId ho so =
      createValidatedEngine s connId (pyDictOr ho) (pyDictOr so) := by
    simp [getEngine, hvar, hreg]
  have h1 : getEngine st name connId ho so =
      createValidatedEngine s connId (pyDictOr ho) (pyDictOr so) := by
    simp [getEngine, hreg]
  exact ⟨h2.trans h1.symm, h2⟩

/-- Witness for C7: with `"alpha"` registered to an always-healthy double,
`get_engine("ALPHA", "conn1")` equals `get_engine("alpha", "conn1")` and
returns a handle. -/
theorem c7_witness :
    (pyLower "ALPHA" = pyLower "alpha" ∧
      dictGet alphaFactory.registry (pyLower "alpha") = some okStrategy) ∧
    (getEngine alphaFactory "ALPHA" "conn1" none none =
        getEngine alphaFactory "alpha" "conn1" none none ∧
      getEngine alphaFactory "ALPHA" "conn1" none none =
        createValidatedEngine okStrategy "conn1" (pyDictOr none) (pyDictOr none)) ∧
    (getEngine alphaFactory "ALPHA" "conn1" none none).1 = .ok 0 :=
  ⟨⟨rfl, rfl⟩,
    c7_case_insensitive_dispatch alphaFactory "alpha" "ALPHA" "conn1" none none
      okStrategy rfl rfl,
    rfl⟩

/-- C8: when the strategy's `create_hook` fails with
`AirflowNotFoundException` (the identifier does not resolve to credentials),
`get_engine` propagates exactly that error — same kind, same message, not
wrapped or translated — after a single `create_hook` attempt and no probe. -/
theorem c8_credential_error_propagated (st : FactoryState) (dbType connId : String)
    (ho so : Option PyDict) (s : Strategy) (m : String)
    (hreg : dictGet st.registry (pyLower dbType) = some s)
    (hid : ¬(connId = "" ∨ pyStrip connId = ""))
    (hhook : s.createHook connId (pyDictOr ho) = .error (.airflowNotFoundException m)) :
    getEngine st dbType connId ho so =
      (.error (.airflowNotFoundException m),
        { hookCalls := 1, probeCalls := 0, disposeCalls := 0 }) := by
  simp [getEngine, createValidatedEngine, hreg, hid, hhook]

/-- Witness for C8 at the credential-failing test double. -/
theorem c8_witness :
    (dictGet (registerStrategy { registry := [] } "alpha" credFailStrategy).registry
        (pyLower "alpha") = some credFailStrategy ∧
      ¬("conn1" = "" ∨ pyStrip "conn1" = "") ∧
      credFailStrategy.createHook "conn1" (pyDictOr none) =
        .error (.airflowNotFoundException "conn not found")) ∧
    getEngine (registerStrategy { registry := [] } "alpha" credFailStrategy)
        "alpha" "conn1" none none =
      (.error (.airflowNotFoundException "conn not found"),
        { hookCalls := 1, probeCalls := 0, disposeCalls := 0 }) :=
  ⟨⟨rfl, by decide, rfl⟩,
    c8_credential_error_propagated
      (registerStrategy { registry := [] } "alpha" credFailStrategy)
      "alpha" "conn1" none none credFailStrategy "conn not found"
      rfl (by decide) rfl⟩

/-- C9: omitting either option dictionary (passing `None`) behaves exactly
like passing an empty dict — `get_engine` normalizes both with `or {}`, and
the strategy always receives genuine dicts. -/
theorem c9_none_options_equal_empty_dicts (st : FactoryState) (dbType connId : String)
    (ho so : Option PyDict) :
    getEngine st dbType connId none so = getEngine st dbType connId (some []) so ∧
    getEngine st dbType connId ho none = getEngine st dbType connId ho (some []) ∧
    getEngine st dbType connId none none =
      getEngine st dbType connId (some []) (some []) :=
  ⟨rfl, rfl, rfl⟩

/-- Python `s.upper()` (log level names are ASCII). -/
def pyUpper (s : String) : String :=
  ⟨s.data.map Char.toUpper⟩

/-- A handler attached to a logger (`src/utils/log_utils.py`):
either the `StreamHandler(sys.stdout)` or the
`RotatingFileHandler(filename, maxBytes, backupCount)`, each carrying the
level set on it.  The formatter is the same fixed format string for every
handler and is omitted from the state. -/
inductive Handler
  | stream (level : Nat)
  | rotatingFile (filename : String) (maxBytes backupCount level : Nat)
deriving Repr, DecidableEq

/-- The state of the process-wide logger singleton that
`logging.getLogger(logger_name)` returns for a given name: its level, its
`propagate` flag and its list of attached handlers. -/
structure LoggerState where
  level : Nat
  propagate : Bool
  handlers : List Handler
deriving Repr, DecidableEq

/-- `getattr(logging, level.upper())` guarded by the `try`/`except` of
`setup_logging` (log_utils.py lines 41-45): the standard level names map to
their numeric codes; any name that is not an attribute of the `logging`
module raises `AttributeError`, which the code catches, printing a warning
and defaulting to `logging.INFO` (20). -/
def logLevelCode (level : String) : Nat :=
  let u := pyUpper level
  if u = "CRITICAL" then 50
  else if u = "FATAL" then 50
  else if u = "ERROR" then 40
  else if u = "WARNING" then 30
  else if u = "WARN" then 30
  else if u = "INFO" then 20
  else if u = "DEBUG" then 10
  else if u = "NOTSET" then 0
  else 20

/-- `setup_logging` (log_utils.py lines 9-79) acting on the state of the
logger singleton named `logger_name`: parses the level, calls
`logger.setLevel`, returns the logger as is when it already has handlers,
and otherwise clears `propagate` (when `prevent_duplicates`), attaches the
console handler (when `enable_console`) and the rotating file handler (when
`log_file` is truthy — `None` and the empty string are falsy).  The
directory creation via `FileSystem.create_directory` is file-system I/O with
no effect on the logger state and is omitted. -/
def setupLogging (level : String) (logFile : Option String)
    (maxFileSize backupCount : Nat) (enableConsole preventDuplicates : Bool)
    (logger : LoggerState) : LoggerState :=
  let code := logLevelCode level
  let logger1 : LoggerState := { logger with level := code }
  if logger1.handlers.isEmpty then
    let logger2 : LoggerState :=
      if preventDuplicates then { logger1 with propagate := false } else logger1
    let logger3 : LoggerState :=
      if enableConsole then
        { logger2 with handlers := logger2.handlers ++ [Handler.stream code] }
      else logger2
    match logFile with
    | none => logger3
    | some f =>
      if f = "" then logger3
      else
        { logger3 with handlers :=
            logger3.handlers ++ [Handler.rotatingFile f maxFileSize backupCount code] }
  else logger1

/-- C10: for a logger that already has at least one handler, a further
`setup_logging` call returns it with the handler list and the `propagate`
flag untouched, whatever the other arguments are (the early return at
log_utils.py lines 50-51 precedes every handler and propagate mutation). -/
theorem c10_setup_logging_idempotent_handlers (level : String)
    (logFile : Option String) (maxFileSize backupCount : Nat)
    (enableConsole preventDuplicates : Bool) (logger : LoggerState)
    (h : logger.handlers ≠ []) :
    (setupLogging level logFile maxFileSize backupCount enableConsole
        preventDuplicates logger).handlers = logger.handlers ∧
    (setupLogging level logFile maxFileSize backupCount enableConsole
        preventDuplicates logger).propagate = logger.propagate := by
  have hne : logger.handlers.isEmpty = false := by
    cases hl : logger.handlers with
    | nil => exact absurd hl h
    | cons a l => rfl
  constructor <;> simp [setupLogging, hne]

/-- Witness for C10: a logger that already carries a console handler is
untouched by a second call, even one asking for a file handler and a
different level. -/
theorem c10_witness :
    ((⟨20, true, [Handler.stream 20]⟩ : LoggerState).handlers ≠ [] ∧
      (setupLogging "DEBUG" (some "/var/log/etl.log") 1024 3 true true
          ⟨20, true, [Handler.stream 20]⟩).handlers =
        (⟨20, true, [Handler.stream 20]⟩ : LoggerState).handlers ∧
      (setupLogging "DEBUG" (some "/var/log/etl.log") 1024 3 true true
          ⟨20, true, [Handler.stream 20]⟩).propagate =
        (⟨20, true, [Handler.stream 20]⟩ : LoggerState).propagate) :=
  ⟨by decide,
    c10_setup_logging_idempotent_handlers "DEBUG" (some "/var/log/etl.log") 1024 3
      true true ⟨20, true, [Handler.stream 20]⟩ (by decide)⟩

end ETLCore
